import Mathlib

/-!
Verification development for the recording-sdk repository.

The definitions below are a shallow embedding of the TypeScript sources:

* `RecordingSession` and its operations embed `src/core/RecordingSession.ts`
  (the per-session lifecycle state machine).  JS `Date.now()` readings are
  passed in as explicit `now : Nat` arguments (epoch milliseconds); fallible
  external media-server round-trips are passed in as explicit `Bool`
  success flags; each operation returns its thrown-or-returned outcome in
  `Except` together with the post-state of the object's mutable fields.
* `ConnectorState` / `connectorDisconnect` embed `KurentoConnector` from
  `src/core/KurentoConnector.ts`, and `calculateReconnectDelay` its
  backoff computation (`Math.random()*0.5+0.5` is passed in as an explicit
  rational `jitter`).
* `ManagerState` and its operations embed the `RecordingManager`
  pipeline-preservation policy from the same file.
* `validateSessionOptions` embeds `ConfigManager.validateSessionOptions`,
  with the default tables of `src/constants/DefaultConfigs.ts`.
* `connectEndpoints` embeds `EndpointManager.connectEndpoints`.
* `WebRTCHandlerState` and its operations embed the ICE-candidate
  buffering of `WebRTCHandler`.
-/

namespace RecSDK

/-- Lifecycle states of a recording session (enum `RecordingState`). -/
inductive RecordingState
  | created
  | ready
  | recording
  | paused
  | stopped
  | error
  deriving DecidableEq, Repr

/-- Selective pause kinds (enum `PauseType`). -/
inductive PauseType
  | both
  | audioOnly
  | videoOnly
  deriving DecidableEq, Repr

/-- The error codes relevant to the claims (enum `ErrorCode`). -/
inductive ErrorCode
  | sessionInvalidState
  | sessionNotReady
  | recordingStopError
  | disconnectFailed
  | invalidParameter
  | endpointCreationFailed
  deriving DecidableEq, Repr

/-- Mutable state of a `RecordingSession` object: the fields of the class
plus the two presence facts the guards read (`endpointManager !== null`,
`webrtcHandler.hasEndpoint()`).  Times are epoch milliseconds. -/
structure RecordingSession where
  insertBlankScreenOnPause : Bool
  hasEndpointManager : Bool
  hasEndpoint : Bool
  state : RecordingState
  startTime : Nat
  stopTime : Nat
  pauseStartTime : Nat
  totalPausedTime : Nat
  blankScreenElement : Bool
  pauseType : PauseType
  isAudioPaused : Bool
  isVideoPaused : Bool
  deriving DecidableEq, Repr

/-- A freshly constructed `RecordingSession` (the class field initializers). -/
def mkRecordingSession (insertBlankScreenOnPause : Bool) : RecordingSession where
  insertBlankScreenOnPause := insertBlankScreenOnPause
  hasEndpointManager := false
  hasEndpoint := false
  state := .created
  startTime := 0
  stopTime := 0
  pauseStartTime := 0
  totalPausedTime := 0
  blankScreenElement := false
  pauseType := .both
  isAudioPaused := false
  isVideoPaused := false

/-- `RecordingSession.initialize` on its success path: creates the endpoint
manager and moves to READY (the try-block's body cannot fail locally). -/
def initSession (s : RecordingSession) : Except ErrorCode Unit × RecordingSession :=
  (.ok (), { s with hasEndpointManager := true, state := .ready })

/-- `RecordingSession.processOffer`.  `createOk` is the success of the whole
chain of external calls inside the `try` (createEndpoints / processOffer /
gatherCandidates / setQualityParameters); `endpointSet` records whether the
failure, if any, happened after `webrtcHandler.setEndpoint` ran. -/
def processOffer (createOk endpointSet : Bool) (s : RecordingSession) :
    Except ErrorCode Unit × RecordingSession :=
  if s.state ≠ .ready then (.error .sessionInvalidState, s)
  else if ¬s.hasEndpointManager then (.error .sessionNotReady, { s with state := .error })
  else if createOk then (.ok (), { s with hasEndpoint := true })
  else (.error .sessionNotReady, { s with state := .error, hasEndpoint := endpointSet })

/-- `RecordingSession.start`.  `startRecordingOk` is the success of
`endpointManager.startRecording()`; on failure the catch block sets ERROR
and rethrows (wrapped with `SESSION_INVALID_STATE`) without stamping
`startTime`. -/
def start (startRecordingOk : Bool) (now : Nat) (s : RecordingSession) :
    Except ErrorCode Unit × RecordingSession :=
  if s.state ≠ .ready then (.error .sessionInvalidState, s)
  else if ¬s.hasEndpointManager then (.error .sessionNotReady, s)
  else if ¬s.hasEndpoint then (.error .sessionNotReady, s)
  else if startRecordingOk then (.ok (), { s with startTime := now, state := .recording })
  else (.error .sessionInvalidState, { s with state := .error })

/-- `RecordingSession.pause`.  Blank-screen insertion is modelled on its
success path (its failures are caught and swallowed inside
`insertPauseBlankScreen` and only affect whether the element exists). -/
def pause (now : Nat) (pauseType : PauseType) (s : RecordingSession) :
    Except ErrorCode Unit × RecordingSession :=
  if s.state ≠ .recording then (.error .sessionInvalidState, s)
  else
    (.ok (), { s with
      pauseStartTime := now
      pauseType := pauseType
      isAudioPaused :=
        if pauseType = .both ∨ pauseType = .audioOnly then true else s.isAudioPaused
      isVideoPaused :=
        if pauseType = .both ∨ pauseType = .videoOnly then true else s.isVideoPaused
      blankScreenElement :=
        if (pauseType = .both ∨ pauseType = .videoOnly) ∧
            s.insertBlankScreenOnPause ∧ ¬s.blankScreenElement
        then true else s.blankScreenElement
      state := .paused })

/-- `RecordingSession.resume`.  `resumeType = none` models an omitted
argument (JS `resumeType || this.pauseType`).  Note the source adds
`now - pauseStartTime` to `totalPausedTime` unconditionally and never
resets `pauseStartTime` on a partial resume. -/
def resume (now : Nat) (resumeType : Option PauseType) (s : RecordingSession) :
    Except ErrorCode Unit × RecordingSession :=
  if s.state ≠ .paused then (.error .sessionInvalidState, s)
  else
    let actualResumeType := resumeType.getD s.pauseType
    let pauseDuration := now - s.pauseStartTime
    let s1 := { s with totalPausedTime := s.totalPausedTime + pauseDuration }
    let s2 :=
      if actualResumeType = .both ∨
          (actualResumeType = .audioOnly ∧ s1.isAudioPaused) ∨
          (actualResumeType = .videoOnly ∧ s1.isVideoPaused) then
        { s1 with
          isAudioPaused :=
            if actualResumeType = .both ∨ actualResumeType = .audioOnly
            then false else s1.isAudioPaused
          isVideoPaused :=
            if actualResumeType = .both ∨ actualResumeType = .videoOnly
            then false else s1.isVideoPaused
          blankScreenElement :=
            if (actualResumeType = .both ∨ actualResumeType = .videoOnly) ∧
                s1.blankScreenElement
            then false else s1.blankScreenElement }
      else s1
    let s3 :=
      if ¬s2.isAudioPaused ∧ ¬s2.isVideoPaused then { s2 with state := .recording } else s2
    (.ok (), s3)

/-- The recording result record (path / profile / session id omitted: they
are copied strings that no claim inspects). -/
structure RecordingResult where
  duration : Int
  startTimestamp : Nat
  endTimestamp : Nat
  deriving DecidableEq, Repr

/-- `Math.round(m / 1000)` for an integer number `m` of milliseconds. -/
def jsRoundDivThousand (m : Int) : Int := (m + 500).fdiv 1000

/-- `RecordingSession.createRecordingResult`. -/
def createRecordingResult (s : RecordingSession) : RecordingResult :=
  let duration : Int :=
    if 0 < s.startTime ∧ 0 < s.stopTime then
      let totalElapsedMs : Int := (s.stopTime : Int) - (s.startTime : Int)
      if ¬s.insertBlankScreenOnPause then
        jsRoundDivThousand (totalElapsedMs - (s.totalPausedTime : Int))
      else
        jsRoundDivThousand totalElapsedMs
    else 0
  { duration := duration, startTimestamp := s.startTime, endTimestamp := s.stopTime }

/-- `RecordingSession.stop`.  `stopRecordingOk` is the success of
`endpointManager.stopRecording()`; blank-screen removal is modelled on its
success path (failures are swallowed inside `removePauseBlankScreen`). -/
def stop (stopRecordingOk : Bool) (now : Nat) (s : RecordingSession) :
    Except ErrorCode RecordingResult × RecordingSession :=
  if s.state ≠ .recording ∧ s.state ≠ .paused ∧ s.state ≠ .error then
    (.error .sessionInvalidState, s)
  else
    let s1 :=
      if s.state = .paused ∧ s.blankScreenElement then { s with blankScreenElement := false }
      else s
    if stopRecordingOk then
      let s2 := { s1 with stopTime := now, state := .stopped }
      (.ok (createRecordingResult s2), s2)
    else
      (.error .recordingStopError, { s1 with state := .error })

/-- One session history: create (blank-screen substitution disabled),
initialize, process an offer, start at t=1ms, `pause(both)` at t=2,
`resume(audio)` at t=1002 (partial resume: video stays muted),
`resume(video)` at t=2002 (back to RECORDING). -/
def c1TraceSession : RecordingSession :=
  let s0 := mkRecordingSession false
  let s1 := (initSession s0).2
  let s2 := (processOffer true true s1).2
  let s3 := (start true 1 s2).2
  let s4 := (pause 2 .both s3).2
  let s5 := (resume 1002 (some .audioOnly) s4).2
  (resume 2002 (some .videoOnly) s5).2

/-! Connection supervisor: `KurentoConnector` (src/core/KurentoConnector.ts). -/

/-- Events emitted by `KurentoConnector`. -/
inductive ConnectorEvent
  | connected
  | disconnected
  | reconnected
  | reconnectFailed
  | reconnectMaxAttempts
  deriving DecidableEq, Repr

/-- Mutable state of a `KurentoConnector` object (`client !== null`,
`isConnecting`, `reconnectTimer !== null`, `reconnectAttempts`). -/
structure ConnectorState where
  hasClient : Bool
  connectInProgress : Bool
  hasReconnectTimer : Bool
  reconnectAttempts : Nat
  deriving DecidableEq, Repr

/-- `KurentoConnector.disconnect`.  `closeOk` is the success of the external
`client.close()` call.  Returns the thrown-or-returned outcome, the
post-state, and the list of events the call emitted. -/
def connectorDisconnect (closeOk : Bool) (c : ConnectorState) :
    Except ErrorCode Unit × ConnectorState × List ConnectorEvent :=
  let c1 := { c with hasReconnectTimer := false }
  if ¬c1.hasClient then (.ok (), c1, [])
  else if closeOk then (.ok (), { c1 with hasClient := false }, [.disconnected])
  else (.error .disconnectFailed, { c1 with hasClient := false }, [.disconnected])

/-- JS `a || b` for an optional numeric config entry: `0` (and an absent
value) falls through to the fallback. -/
def jsTruthyOr (supplied : Option Int) (fallback : Int) : Int :=
  match supplied with
  | some v => if v = 0 then fallback else v
  | none => fallback

/-- `ConfigManager.get "connection.reconnectBaseDelay"`. -/
def reconnectBaseDelayDefault : Int := 1000

/-- `ConfigManager.get "connection.reconnectMaxDelay"`. -/
def reconnectMaxDelayDefault : Int := 30000

/-- `KurentoConnector.calculateReconnectDelay`.  `attempts` is the value of
`reconnectAttempts` at the call (≥ 1: the caller increments first);
`jitter` is the drawn `Math.random() * 0.5 + 0.5` ∈ [0.5, 1); the result is
`Math.floor(exponentialBackoff * jitter)`. -/
def calculateReconnectDelay (baseOpt maxOpt : Option Int) (attempts : Nat) (jitter : ℚ) :
    Int :=
  let baseDelay := jsTruthyOr baseOpt reconnectBaseDelayDefault
  let maxDelay := jsTruthyOr maxOpt reconnectMaxDelayDefault
  let exponentialBackoff : ℚ := min (maxDelay : ℚ) ((baseDelay : ℚ) * 2 ^ (attempts - 1))
  ⌊exponentialBackoff * jitter⌋

/-- The expected value of `calculateReconnectDelay`'s pre-floor product over
the uniform jitter on [1/2, 1), whose mean is 3/4. -/
def expectedReconnectDelay (baseOpt maxOpt : Option Int) (attempts : Nat) : ℚ :=
  let baseDelay := jsTruthyOr baseOpt reconnectBaseDelayDefault
  let maxDelay := jsTruthyOr maxOpt reconnectMaxDelayDefault
  (3 / 4) * min (maxDelay : ℚ) ((baseDelay : ℚ) * 2 ^ (attempts - 1))

/-! Session coordinator: `RecordingManager` (src/core/KurentoConnector.ts,
pipeline-preservation policy). -/

/-- Events emitted by `RecordingManager` that the preservation policy
produces. -/
inductive ManagerEvent
  | pipelinePreserved (sessionCount : Nat) (maxReconnectionTimeMs : Nat)
  | reconnectionTimedOut (sessionId : String) (timeoutMs : Nat)
  | pipelineReleased (sessionId : String)
  | sessionEnded (sessionId : String)
  deriving DecidableEq, Repr

/-- The `RecordingManager` state relevant to the preservation policy: the
config flags, the session registry (`sessions` keys), the disconnection
timestamp and the armed release timers (`pipelineReleaseTimers` keys). -/
structure ManagerState where
  preservePipelinesOnDisconnect : Bool
  maxReconnectionTimeMs : Nat
  sessions : List String
  disconnectionTimestamp : Option Nat
  pipelineReleaseTimers : List String
  deriving DecidableEq, Repr

/-- Arming a timer for one session: replaces any existing timer for that
session (a map insert on the timer map's key set). -/
def armTimer (timers : List String) (sessionId : String) : List String :=
  if sessionId ∈ timers then timers else timers ++ [sessionId]

/-- `RecordingManager.schedulePipelineRelease`: one release timer per active
session. -/
def schedulePipelineRelease (m : ManagerState) : ManagerState :=
  { m with pipelineReleaseTimers := m.sessions.foldl armTimer m.pipelineReleaseTimers }

/-- `RecordingManager.disconnect(releasePipelines)`: the session-policy part
(the subsequent connector disconnect is `connectorDisconnect`).  In the
non-preserve branch, `stopOk sid` is the success of `session.stop()` for
session `sid` inside `stopAllSessions`: that branch clears every release
timer first, then stops each session, removing it and emitting a
session-ended notification only when its stop succeeds — a failing stop is
logged and the session stays in the registry.  (The source emits the
session-ended notifications in completion order of the concurrent stops;
registry order here.) -/
def managerDisconnect (now : Nat) (releasePipelines : Bool) (stopOk : String → Bool)
    (m : ManagerState) : ManagerState × List ManagerEvent :=
  if 0 < m.sessions.length ∧ m.preservePipelinesOnDisconnect ∧ ¬releasePipelines then
    let m1 := { m with disconnectionTimestamp := some now }
    let m2 := if 0 < m.maxReconnectionTimeMs then schedulePipelineRelease m1 else m1
    (m2, [.pipelinePreserved m.sessions.length m.maxReconnectionTimeMs])
  else if 0 < m.sessions.length then
    ({ m with sessions := m.sessions.filter (fun sid => ¬stopOk sid)
              pipelineReleaseTimers := [] },
     (m.sessions.filter (fun sid => stopOk sid)).map .sessionEnded)
  else (m, [])

/-- The `setTimeout` callback armed by `schedulePipelineRelease`, firing for
`sessionId`.  `releaseOk` is the success of the external
`session.release()` round-trip: on success (or when the session is no
longer in the registry, so release is not attempted) the callback removes
the session from the registry and the timer map and emits the timeout and
released notifications; when the release throws, the catch only logs, so
the registry, the timer map and the event stream are left untouched. -/
def releaseTimerFire (releaseOk : Bool) (sessionId : String) (m : ManagerState) :
    ManagerState × List ManagerEvent :=
  if sessionId ∈ m.sessions ∧ ¬releaseOk then (m, [])
  else
    ({ m with
        sessions := m.sessions.filter (fun sid => sid ≠ sessionId)
        pipelineReleaseTimers := m.pipelineReleaseTimers.filter (fun sid => sid ≠ sessionId) },
     [.reconnectionTimedOut sessionId m.maxReconnectionTimeMs, .pipelineReleased sessionId])

/-- The reconnection bookkeeping inside `RecordingManager.connect` on a
successful (re)connection: with a recorded disconnection timestamp it
clears every pipeline release timer and resets the timestamp. -/
def managerReconnectSuccess (m : ManagerState) : ManagerState :=
  if m.disconnectionTimestamp ≠ none then
    { m with pipelineReleaseTimers := [], disconnectionTimestamp := none }
  else m

/-! Option normalization: `ConfigManager.validateSessionOptions`
(src/utils/ConfigManager.ts) with the tables of DefaultConfigs.ts. -/

/-- Quality presets (enum `RecordingQuality`). -/
inductive RecordingQuality
  | low
  | medium
  | high
  | ultra
  deriving DecidableEq, Repr

/-- Output container profiles (enum `MediaProfile`). -/
inductive MediaProfile
  | webm
  | webmVideoOnly
  | webmAudioOnly
  | mp4
  | mp4VideoOnly
  | mp4AudioOnly
  deriving DecidableEq, Repr

/-- Recording modes (enum `RecordingMode`). -/
inductive RecordingMode
  | audioVideo
  | audioOnly
  | videoOnly
  deriving DecidableEq, Repr

/-- A quality preset's parameters (`QualityParams`). -/
structure QualityParams where
  maxBitrate : Int
  minBitrate : Int
  frameRate : Int
  qualityLevel : Int
  deriving DecidableEq, Repr

/-- `DEFAULT_QUALITY_SETTINGS`. -/
def defaultQualitySettings : RecordingQuality → QualityParams
  | .low => { maxBitrate := 1000, minBitrate := 200, frameRate := 15, qualityLevel := 7 }
  | .medium => { maxBitrate := 2000, minBitrate := 500, frameRate := 24, qualityLevel := 5 }
  | .high => { maxBitrate := 4000, minBitrate := 1000, frameRate := 30, qualityLevel := 3 }
  | .ultra => { maxBitrate := 8000, minBitrate := 2000, frameRate := 60, qualityLevel := 1 }

/-- `RECORDING_MODE_PROFILES`. -/
def recordingModeProfile : RecordingMode → MediaProfile
  | .audioVideo => .webm
  | .audioOnly => .webmAudioOnly
  | .videoOnly => .webmVideoOnly

/-- Caller-supplied session options (fields that feed the normalization the
claims are about; `sessionId`, `filePath`, `shareType` and
`blankScreenColor` are string/id plumbing no claim inspects). -/
structure SessionOptionsInput where
  mediaProfile : Option MediaProfile := none
  quality : Option RecordingQuality := none
  maxBitrate : Option Int := none
  minBitrate : Option Int := none
  recordingMode : Option RecordingMode := none
  hasAudio : Option Bool := none
  width : Option Int := none
  height : Option Int := none
  frameRate : Option Int := none
  insertBlankScreenOnPause : Option Bool := none
  deriving DecidableEq, Repr

/-- The normalized (`Required`) session options. -/
structure NormalizedSessionOptions where
  mediaProfile : MediaProfile
  quality : RecordingQuality
  maxBitrate : Int
  minBitrate : Int
  recordingMode : RecordingMode
  hasAudio : Bool
  width : Int
  height : Int
  frameRate : Int
  insertBlankScreenOnPause : Bool
  deriving DecidableEq, Repr

/-- `ConfigManager.validateSessionOptions` (DEFAULT_SESSION_OPTIONS:
quality HIGH, recordingMode AUDIO_VIDEO, hasAudio true,
insertBlankScreenOnPause true; `validateMediaProfileForMode` only logs
warnings and is omitted). -/
def validateSessionOptions (o : SessionOptionsInput) :
    Except ErrorCode NormalizedSessionOptions :=
  let recordingMode := o.recordingMode.getD .audioVideo
  let mediaProfile := o.mediaProfile.getD (recordingModeProfile recordingMode)
  let quality := o.quality.getD .high
  let qs := defaultQualitySettings quality
  let hasAudio0 := o.hasAudio.getD (decide (recordingMode ≠ .videoOnly) && true)
  let hasAudio1 := if recordingMode = .audioOnly ∧ ¬hasAudio0 then true else hasAudio0
  let width := o.width.getD 1920
  let height := o.height.getD 1080
  if recordingMode = .videoOnly ∧ (width ≤ 0 ∨ height ≤ 0) then
    .error .invalidParameter
  else
    let minB0 := o.minBitrate.getD qs.minBitrate
    let maxB0 := o.maxBitrate.getD qs.maxBitrate
    let minB1 := if minB0 ≤ 0 then qs.minBitrate else minB0
    let maxB1 := if maxB0 ≤ 0 then qs.maxBitrate else maxB0
    .ok {
      mediaProfile := mediaProfile
      quality := quality
      maxBitrate := if maxB1 < minB1 then minB1 else maxB1
      minBitrate := if maxB1 < minB1 then maxB1 else minB1
      recordingMode := recordingMode
      hasAudio := hasAudio1
      width := width
      height := height
      frameRate := o.frameRate.getD qs.frameRate
      insertBlankScreenOnPause := o.insertBlankScreenOnPause.getD true }

/-! Endpoint manager: `EndpointManager.connectEndpoints`
(src/core/EndpointManager.ts).  The TS enum is a string enum, so an
out-of-enum runtime value is possible; the mode is therefore embedded as
the raw string. -/

/-- Which tracks `connectEndpoints` wires from the WebRTC (ingress) element
to the recorder element. -/
inductive EndpointConnection
  | bothTracks
  | audioTrackOnly
  | videoTrackOnly
  deriving DecidableEq, Repr

/-- `EndpointManager.connectEndpoints`: returns the wiring performed and
whether the unknown-mode warning was logged. -/
def connectEndpoints (hasWebRtcEndpoint hasRecorderEndpoint : Bool) (recordingMode : String) :
    Except ErrorCode (EndpointConnection × Bool) :=
  if ¬hasWebRtcEndpoint ∨ ¬hasRecorderEndpoint then .error .endpointCreationFailed
  else if recordingMode = "audio-video" then .ok (.bothTracks, false)
  else if recordingMode = "audio-only" then .ok (.audioTrackOnly, false)
  else if recordingMode = "video-only" then .ok (.videoTrackOnly, false)
  else .ok (.bothTracks, true)

/-! Signaling handler: ICE-candidate buffering in `WebRTCHandler`
(src/core/RecordingSession.ts). Candidates are abstracted as naturals. -/

/-- Mutable state of a `WebRTCHandler` (`webRtcEndpoint !== null` and the
`pendingCandidates` buffer). -/
structure WebRTCHandlerState where
  hasEndpoint : Bool
  pendingCandidates : List Nat
  deriving DecidableEq, Repr

/-- `WebRTCHandler.addIceCandidate`.  `applyOk` is the success of the
external `webRtcEndpoint.addIceCandidate` call.  Returns the post-state,
the candidates forwarded to the endpoint by this call, and whether the
call threw. -/
def addIceCandidate (applyOk : Bool) (candidate : Nat) (h : WebRTCHandlerState) :
    WebRTCHandlerState × List Nat × Bool :=
  if ¬h.hasEndpoint then
    ({ h with pendingCandidates := h.pendingCandidates ++ [candidate] }, [], false)
  else if applyOk then (h, [candidate], false)
  else (h, [candidate], true)

/-- A sequence of `addIceCandidate` calls (post-states only). -/
def addIceCandidates (candidates : List Nat) (h : WebRTCHandlerState) : WebRTCHandlerState :=
  candidates.foldl (fun acc c => (addIceCandidate true c acc).1) h

/-- The flush loop inside `applyPendingCandidates`: every candidate is
attempted in order; a failure (per `applyOk`) is logged and collected but
does not stop the loop.  Returns (attempted, failed). -/
def flushAttempts (applyOk : Nat → Bool) : List Nat → List Nat × List Nat
  | [] => ([], [])
  | c :: rest =>
    let tail := flushAttempts applyOk rest
    (c :: tail.1, if applyOk c then tail.2 else c :: tail.2)

/-- `WebRTCHandler.applyPendingCandidates`. -/
def applyPendingCandidates (applyOk : Nat → Bool) (h : WebRTCHandlerState) :
    WebRTCHandlerState × List Nat × Bool :=
  if ¬h.hasEndpoint ∨ h.pendingCandidates.isEmpty then (h, [], false)
  else
    ({ h with pendingCandidates := [] }, (flushAttempts applyOk h.pendingCandidates).1, false)

/-- `WebRTCHandler.setEndpoint`: attaches the element, then flushes any
pending candidates. -/
def setEndpoint (applyOk : Nat → Bool) (h : WebRTCHandlerState) :
    WebRTCHandlerState × List Nat × Bool :=
  let h1 := { h with hasEndpoint := true }
  if h1.pendingCandidates.isEmpty then (h1, [], false)
  else applyPendingCandidates applyOk h1

/-- A live RECORDING session, used as a concrete input to hypothesized
theorems. -/
def demoRecordingSession : RecordingSession where
  insertBlankScreenOnPause := true
  hasEndpointManager := true
  hasEndpoint := true
  state := .recording
  startTime := 5
  stopTime := 0
  pauseStartTime := 0
  totalPausedTime := 0
  blankScreenElement := false
  pauseType := .both
  isAudioPaused := false
  isVideoPaused := false

/-- A PAUSED session (both sub-streams muted), used as a concrete input to
hypothesized theorems. -/
def demoPausedSession : RecordingSession where
  insertBlankScreenOnPause := true
  hasEndpointManager := true
  hasEndpoint := true
  state := .paused
  startTime := 5
  stopTime := 0
  pauseStartTime := 7
  totalPausedTime := 0
  blankScreenElement := true
  pauseType := .both
  isAudioPaused := true
  isVideoPaused := true

/-! Helper lemmas. -/

/-- Membership in the timer map after arming one timer. -/
theorem mem_armTimer (timers : List String) (sid x : String) :
    x ∈ armTimer timers sid ↔ x ∈ timers ∨ x = sid := by
  unfold armTimer
  split
  · rename_i hmem
    constructor
    · exact fun hx => Or.inl hx
    · rintro (hx | rfl)
      · exact hx
      · exact hmem
  · simp

/-- Membership in the timer map after arming a timer per listed session. -/
theorem mem_foldl_armTimer (l : List String) :
    ∀ (init : List String) (x : String),
      x ∈ l.foldl armTimer init ↔ x ∈ init ∨ x ∈ l := by
  induction l with
  | nil => intro init x; simp
  | cons a rest ih =>
    intro init x
    rw [List.foldl_cons, ih, mem_armTimer]
    simp
    tauto

/-- The JS `||` fallback keeps a delay positive whenever the supplied value
is non-negative and the fallback is positive. -/
theorem jsTruthyOr_pos (opt : Option Int) (d : Int) (hd : 0 < d)
    (h : ∀ v, opt = some v → 0 ≤ v) : 0 < jsTruthyOr opt d := by
  cases opt with
  | none => simpa [jsTruthyOr] using hd
  | some v =>
    have hv := h v rfl
    by_cases hz : v = 0
    · simpa [jsTruthyOr, hz] using hd
    · simp only [jsTruthyOr, if_neg hz]
      omega

/-- Buffering candidates with no endpoint attached only appends to the
pending buffer, in arrival order. -/
theorem addIceCandidates_of_no_endpoint (cs : List Nat) :
    ∀ (h : WebRTCHandlerState), h.hasEndpoint = false →
      addIceCandidates cs h =
        { h with pendingCandidates := h.pendingCandidates ++ cs } := by
  induction cs with
  | nil => intro h hno; simp [addIceCandidates]
  | cons c rest ih =>
    intro h hno
    have step : (addIceCandidate true c h).1 =
        { h with pendingCandidates := h.pendingCandidates ++ [c] } := by
      simp [addIceCandidate, hno]
    have : addIceCandidates (c :: rest) h =
        addIceCandidates rest (addIceCandidate true c h).1 := by
      simp [addIceCandidates]
    rw [this, step, ih _ (by simp [hno])]
    simp

/-- The flush loop attempts every buffered candidate, whatever the
per-candidate outcomes. -/
theorem flushAttempts_fst (applyOk : Nat → Bool) (l : List Nat) :
    (flushAttempts applyOk l).1 = l := by
  induction l with
  | nil => rfl
  | cons c rest ih => simp [flushAttempts, ih]

/-- Every quality preset has a positive minimum bitrate. -/
theorem defaultQualitySettings_minBitrate_pos (q : RecordingQuality) :
    0 < (defaultQualitySettings q).minBitrate := by
  cases q <;> decide

/-- Every quality preset has a positive maximum bitrate. -/
theorem defaultQualitySettings_maxBitrate_pos (q : RecordingQuality) :
    0 < (defaultQualitySettings q).maxBitrate := by
  cases q <;> decide

/-! Claim theorems. -/

/-- Claim C1 (refuted, code bug): a successful start/stop pair is claimed to
always yield a non-negative duration bounded by the elapsed wall-clock
time, for every interleaving of pause and resume calls, including partial
resumes.  Evaluating the stop on `c1TraceSession` — start at t=1ms,
`pause(both)` at t=2, `resume(audio)` at t=1002, `resume(video)` at t=2002,
stop at t=2003 — yields duration −1 s: `resume` adds
`now - pauseStartTime` on every call but never resets `pauseStartTime`, so
the two resumes double-count the pause interval and `totalPausedTime`
(3000 ms) exceeds the elapsed time (2002 ms). -/
theorem c1_stop_after_partial_resumes_yields_negative_duration :
    (stop true 2003 c1TraceSession).1 =
      .ok { duration := -1, startTimestamp := 1, endTimestamp := 2003 } ∧
    ((-1 : Int) < 0) := ⟨rfl, by decide⟩

/-- Claim C2 (counterexample): `connectorDisconnect` with a connected client
and a failing close returns an error — the failure is rethrown, not
swallowed, so `disconnect()` can throw; and a disconnect with no client
emits no disconnected notification at all. -/
theorem c2_disconnect_counterexample :
    (connectorDisconnect false ⟨true, false, true, 0⟩).1 = .error .disconnectFailed ∧
    (connectorDisconnect true ⟨false, false, true, 0⟩).2.2 = ([] : List ConnectorEvent) :=
  ⟨rfl, rfl⟩

/-- Claim C2 (amended): for every disconnect on a connected connector, the
local state is forced to disconnected (client cleared, reconnect timer
cancelled) and the disconnected notification is emitted even when the
underlying close fails, but a close failure is rethrown to the caller as a
disconnect-failed connection error rather than swallowed. -/
theorem c2_disconnect_amended (c : ConnectorState) (closeOk : Bool)
    (h : c.hasClient = true) :
    ((connectorDisconnect closeOk c).2.1.hasClient = false) ∧
    ((connectorDisconnect closeOk c).2.1.hasReconnectTimer = false) ∧
    ((connectorDisconnect closeOk c).2.2 = [.disconnected]) ∧
    (closeOk = false → (connectorDisconnect closeOk c).1 = .error .disconnectFailed) ∧
    (closeOk = true → (connectorDisconnect closeOk c).1 = .ok ()) := by
  cases closeOk <;> simp [connectorDisconnect, h]

/-- Witness for C2's amended theorem at a concrete connected connector with
a failing close. -/
theorem c2_disconnect_amended_witness :
    (⟨true, false, true, 3⟩ : ConnectorState).hasClient = true ∧
    (connectorDisconnect false ⟨true, false, true, 3⟩).2.2 = [.disconnected] :=
  ⟨rfl, (c2_disconnect_amended ⟨true, false, true, 3⟩ false rfl).2.2.1⟩

/-- Claim C3 (counterexample): at a concrete manager, a firing release
timer whose `session.release()` round-trip fails removes nothing from the
registry, keeps its timer entry, and emits no timeout notification — the
callback's catch only logs — refuting the claim's unconditional
removal-and-notification for every firing timer. -/
theorem c3_release_timer_counterexample :
    (releaseTimerFire false ("a")
      ⟨true, 30000, ["a", "b"], some 5, ["a", "b"]⟩).1 =
      ⟨true, 30000, ["a", "b"], some 5, ["a", "b"]⟩ ∧
    (releaseTimerFire false ("a")
      ⟨true, 30000, ["a", "b"], some 5, ["a", "b"]⟩).2 = [] := by
  constructor <;> simp [releaseTimerFire]

/-- Claim C3 (amended): a coordinator disconnect with preservation
configured and at least one active session stops no session, records the
disconnection timestamp, arms one release timer per active session when
the reconnection window is positive, and emits the pipeline-preserved
notification with the session count; a firing timer whose session release
round-trip succeeds removes exactly that session from the registry with
the timeout notification, while a firing timer whose release fails leaves
the registry, the timer map and the event stream untouched (the callback
only logs); a successful reconnection clears all pending timers and the
timestamp. -/
theorem c3_preserve_on_disconnect (m : ManagerState) (now : Nat) (sid : String)
    (stopOk : String → Bool)
    (hp : m.preservePipelinesOnDisconnect = true) (hs : m.sessions ≠ []) :
    ((managerDisconnect now false stopOk m).1.sessions = m.sessions) ∧
    ((managerDisconnect now false stopOk m).1.disconnectionTimestamp = some now) ∧
    ((managerDisconnect now false stopOk m).2 =
      [.pipelinePreserved m.sessions.length m.maxReconnectionTimeMs]) ∧
    (0 < m.maxReconnectionTimeMs → ∀ s ∈ m.sessions,
      s ∈ (managerDisconnect now false stopOk m).1.pipelineReleaseTimers) ∧
    (sid ∉ (releaseTimerFire true sid (managerDisconnect now false stopOk m).1).1.sessions) ∧
    (∀ s ∈ m.sessions, s ≠ sid →
      s ∈ (releaseTimerFire true sid (managerDisconnect now false stopOk m).1).1.sessions) ∧
    ((releaseTimerFire true sid (managerDisconnect now false stopOk m).1).2 =
      [.reconnectionTimedOut sid m.maxReconnectionTimeMs, .pipelineReleased sid]) ∧
    (sid ∈ m.sessions →
      releaseTimerFire false sid (managerDisconnect now false stopOk m).1 =
        ((managerDisconnect now false stopOk m).1, [])) ∧
    ((managerReconnectSuccess
        (managerDisconnect now false stopOk m).1).pipelineReleaseTimers = []) ∧
    ((managerReconnectSuccess
        (managerDisconnect now false stopOk m).1).disconnectionTimestamp = none) := by
  have hlen : 0 < m.sessions.length := List.length_pos.mpr hs
  have hguard : (0 < m.sessions.length ∧ m.preservePipelinesOnDisconnect ∧
      ¬(false : Bool)) := by
    simp [hlen, hp]
  have hsess : (managerDisconnect now false stopOk m).1.sessions = m.sessions := by
    unfold managerDisconnect
    rw [if_pos hguard]
    split <;> simp [schedulePipelineRelease]
  have hts : (managerDisconnect now false stopOk m).1.disconnectionTimestamp
      = some now := by
    unfold managerDisconnect
    rw [if_pos hguard]
    split <;> simp [schedulePipelineRelease]
  have hmax : (managerDisconnect now false stopOk m).1.maxReconnectionTimeMs =
      m.maxReconnectionTimeMs := by
    unfold managerDisconnect
    rw [if_pos hguard]
    split <;> simp [schedulePipelineRelease]
  refine ⟨hsess, hts, ?_, ?_, ?_, ?_, ?_, ?_, ?_, ?_⟩
  · unfold managerDisconnect
    rw [if_pos hguard]
  · intro hpos s hmem
    unfold managerDisconnect
    rw [if_pos hguard]
    simp only [if_pos hpos]
    simp [schedulePipelineRelease, mem_foldl_armTimer, hmem]
  · simp [releaseTimerFire]
  · intro s hmem hne
    simp [releaseTimerFire, hsess, hmem, hne]
  · simp [releaseTimerFire, hmax]
  · intro hmem
    have : sid ∈ (managerDisconnect now false stopOk m).1.sessions := by
      rw [hsess]; exact hmem
    simp [releaseTimerFire, this]
  · simp [managerReconnectSuccess, hts]
  · simp [managerReconnectSuccess, hts]

/-- Witness for C3 at a concrete manager with two active sessions and a
30-second reconnection window, exercising both the succeeding and the
failing release round-trip of the fired timer. -/
theorem c3_preserve_on_disconnect_witness :
    (⟨true, 30000, ["a", "b"], none, []⟩ : ManagerState).sessions ≠ [] ∧
    (managerDisconnect 5 false (fun _ => true) ⟨true, 30000, ["a", "b"], none, []⟩).2 =
      [.pipelinePreserved 2 30000] ∧
    (("b") ∈ (managerDisconnect 5 false (fun _ => true)
      ⟨true, 30000, ["a", "b"], none, []⟩).1.pipelineReleaseTimers) ∧
    (("a") ∉ (releaseTimerFire true ("a") (managerDisconnect 5 false (fun _ => true)
      ⟨true, 30000, ["a", "b"], none, []⟩).1).1.sessions) ∧
    (releaseTimerFire false ("a") (managerDisconnect 5 false (fun _ => true)
        ⟨true, 30000, ["a", "b"], none, []⟩).1 =
      ((managerDisconnect 5 false (fun _ => true)
        ⟨true, 30000, ["a", "b"], none, []⟩).1, [])) ∧
    ((managerReconnectSuccess (managerDisconnect 5 false (fun _ => true)
      ⟨true, 30000, ["a", "b"], none, []⟩).1).pipelineReleaseTimers = []) := by
  have h := c3_preserve_on_disconnect ⟨true, 30000, ["a", "b"], none, []⟩ 5 ("a")
    (fun _ => true) rfl (by simp)
  exact ⟨by simp, h.2.2.1, h.2.2.2.1 (by norm_num) ("b") (by simp),
    h.2.2.2.2.1, h.2.2.2.2.2.2.2.1 (by simp), h.2.2.2.2.2.2.2.2.1⟩

/-- Claim C4: after normalization succeeds, a supplied non-positive bitrate
bound has been replaced by the (positive) quality-preset value, and the
normalized bounds satisfy `minBitrate ≤ maxBitrate` with both positive
(swapping when the defaulted minimum exceeded the defaulted maximum). -/
theorem c4_bitrate_normalization (o : SessionOptionsInput) (n : NormalizedSessionOptions)
    (h : validateSessionOptions o = .ok n) :
    (n.minBitrate ≤ n.maxBitrate ∧ 0 < n.minBitrate ∧ 0 < n.maxBitrate) ∧
    (∀ v, o.minBitrate = some v → v ≤ 0 →
      (n.minBitrate = (defaultQualitySettings (o.quality.getD .high)).minBitrate ∨
       n.maxBitrate = (defaultQualitySettings (o.quality.getD .high)).minBitrate)) ∧
    (∀ v, o.maxBitrate = some v → v ≤ 0 →
      (n.minBitrate = (defaultQualitySettings (o.quality.getD .high)).maxBitrate ∨
       n.maxBitrate = (defaultQualitySettings (o.quality.getD .high)).maxBitrate)) := by
  unfold validateSessionOptions at h
  dsimp only at h
  split at h
  · exact absurd h (by simp)
  · rw [Except.ok.injEq] at h
    subst h
    have hqmin := defaultQualitySettings_minBitrate_pos (o.quality.getD .high)
    have hqmax := defaultQualitySettings_maxBitrate_pos (o.quality.getD .high)
    refine ⟨?_, ?_, ?_⟩
    · dsimp only
      split_ifs <;> constructor <;> try constructor
      all_goals omega
    · intro v hv hvle
      dsimp only
      rw [hv, Option.getD_some, if_pos hvle]
      split_ifs <;> simp
    · intro v hv hvle
      dsimp only
      rw [hv, Option.getD_some, if_pos hvle]
      split_ifs <;> simp

/-- Witness for C4: a supplied negative minimum and zero maximum are
replaced by the HIGH preset values 1000/4000. -/
theorem c4_bitrate_normalization_witness :
    validateSessionOptions { minBitrate := some (-5), maxBitrate := some 0 } =
      .ok { mediaProfile := .webm, quality := .high, maxBitrate := 4000,
            minBitrate := 1000, recordingMode := .audioVideo, hasAudio := true,
            width := 1920, height := 1080, frameRate := 30,
            insertBlankScreenOnPause := true } ∧
    (1000 : Int) ≤ 4000 ∧ (0 : Int) < 1000 := by
  have h := c4_bitrate_normalization
    { minBitrate := some (-5), maxBitrate := some 0 }
    { mediaProfile := .webm, quality := .high, maxBitrate := 4000, minBitrate := 1000,
      recordingMode := .audioVideo, hasAudio := true, width := 1920, height := 1080,
      frameRate := 30, insertBlankScreenOnPause := true } rfl
  exact ⟨rfl, h.1.1, h.1.2.1⟩

/-- Claim C5: after `pause(both)`, `resume(both)` clears both muted flags and
returns the session to RECORDING while `resume(video)` clears only the
video flag, leaves audio muted and the state PAUSED; in general a resume
reaches RECORDING exactly when neither sub-stream remains muted
afterwards. -/
theorem c5_resume_transitions (s s2 : RecordingSession) (t t1 t2 : Nat)
    (rt : Option PauseType)
    (hrec : s.state = .recording) (hp : s2.state = .paused) :
    ((resume t1 (some .both) (pause t .both s).2).2.state = .recording ∧
     (resume t1 (some .both) (pause t .both s).2).2.isAudioPaused = false ∧
     (resume t1 (some .both) (pause t .both s).2).2.isVideoPaused = false) ∧
    ((resume t1 (some .videoOnly) (pause t .both s).2).2.state = .paused ∧
     (resume t1 (some .videoOnly) (pause t .both s).2).2.isAudioPaused = true ∧
     (resume t1 (some .videoOnly) (pause t .both s).2).2.isVideoPaused = false) ∧
    ((resume t2 rt s2).2.state = .recording ↔
      ((resume t2 rt s2).2.isAudioPaused = false ∧
       (resume t2 rt s2).2.isVideoPaused = false)) := by
  refine ⟨?_, ?_, ?_⟩
  · simp [pause, resume, hrec]
  · simp [pause, resume, hrec]
  · rcases rt with _ | pt
    · rcases hpt : s2.pauseType <;>
        rcases ha : s2.isAudioPaused <;> rcases hv : s2.isVideoPaused <;>
        simp [resume, hp, ha, hv, hpt]
    · rcases pt <;>
        rcases ha : s2.isAudioPaused <;> rcases hv : s2.isVideoPaused <;>
        simp [resume, hp, ha, hv]

/-- Witness for C5 at concrete RECORDING and PAUSED sessions. -/
theorem c5_resume_transitions_witness :
    demoRecordingSession.state = .recording ∧
    (resume 9 (some .both) (pause 7 .both demoRecordingSession).2).2.state = .recording ∧
    (resume 9 (some .videoOnly) (pause 7 .both demoRecordingSession).2).2.state =
      .paused := by
  have h := c5_resume_transitions demoRecordingSession demoPausedSession 7 9 11 none
    rfl rfl
  exact ⟨rfl, h.1.1, h.2.1.1⟩

/-- Claim C6: for attempt `a ≥ 1` and jitter in [1/2, 1), the computed
reconnection delay equals `⌊min(maxDelay, baseDelay·2^(a−1))·jitter⌋`, lies
within [0, maxDelay], and the expected (mean-jitter) delay is non-decreasing
in `a` and strictly increasing while the exponential term is below
`maxDelay` (supplied delay options taken non-negative). -/
theorem c6_reconnect_delay (baseOpt maxOpt : Option Int) (attempts : Nat) (jitter : ℚ)
    (hbase : ∀ v, baseOpt = some v → 0 ≤ v) (hmax : ∀ v, maxOpt = some v → 0 ≤ v)
    (ha : 1 ≤ attempts) (hj1 : 1 / 2 ≤ jitter) (hj2 : jitter < 1) :
    (calculateReconnectDelay baseOpt maxOpt attempts jitter =
      ⌊min ((jsTruthyOr maxOpt reconnectMaxDelayDefault : Int) : ℚ)
          (((jsTruthyOr baseOpt reconnectBaseDelayDefault : Int) : ℚ) *
            2 ^ (attempts - 1)) * jitter⌋) ∧
    (0 ≤ calculateReconnectDelay baseOpt maxOpt attempts jitter) ∧
    (calculateReconnectDelay baseOpt maxOpt attempts jitter ≤
      jsTruthyOr maxOpt reconnectMaxDelayDefault) ∧
    (expectedReconnectDelay baseOpt maxOpt attempts ≤
      expectedReconnectDelay baseOpt maxOpt (attempts + 1)) ∧
    ((((jsTruthyOr baseOpt reconnectBaseDelayDefault : Int) : ℚ) * 2 ^ (attempts - 1) <
        ((jsTruthyOr maxOpt reconnectMaxDelayDefault : Int) : ℚ)) →
      expectedReconnectDelay baseOpt maxOpt attempts <
        expectedReconnectDelay baseOpt maxOpt (attempts + 1)) := by
  have hBpos : 0 < jsTruthyOr baseOpt reconnectBaseDelayDefault :=
    jsTruthyOr_pos _ _ (by norm_num [reconnectBaseDelayDefault]) hbase
  have hMpos : 0 < jsTruthyOr maxOpt reconnectMaxDelayDefault :=
    jsTruthyOr_pos _ _ (by norm_num [reconnectMaxDelayDefault]) hmax
  set B : ℚ := ((jsTruthyOr baseOpt reconnectBaseDelayDefault : Int) : ℚ) with hB
  set M : ℚ := ((jsTruthyOr maxOpt reconnectMaxDelayDefault : Int) : ℚ) with hM
  have hBq : 0 < B := by rw [hB]; exact_mod_cast hBpos
  have hMq : 0 < M := by rw [hM]; exact_mod_cast hMpos
  have hjpos : 0 ≤ jitter := le_trans (by norm_num) hj1
  have hxnn : 0 ≤ min M (B * 2 ^ (attempts - 1)) :=
    le_min hMq.le (mul_nonneg hBq.le (by positivity))
  refine ⟨rfl, ?_, ?_, ?_, ?_⟩
  · exact Int.floor_nonneg.mpr (mul_nonneg hxnn hjpos)
  · have hle : min M (B * 2 ^ (attempts - 1)) * jitter ≤ M :=
      le_trans (mul_le_of_le_one_right hxnn hj2.le) (min_le_left _ _)
    calc calculateReconnectDelay baseOpt maxOpt attempts jitter
        = ⌊min M (B * 2 ^ (attempts - 1)) * jitter⌋ := rfl
      _ ≤ ⌊M⌋ := Int.floor_le_floor hle
      _ = jsTruthyOr maxOpt reconnectMaxDelayDefault := by
          rw [hM, Int.floor_intCast]
  · show (3 / 4 : ℚ) * min M (B * 2 ^ (attempts - 1)) ≤
      (3 / 4 : ℚ) * min M (B * 2 ^ (attempts + 1 - 1))
    have hexp : (attempts + 1 - 1) = attempts := by omega
    rw [hexp]
    have hpow : B * 2 ^ (attempts - 1) ≤ B * 2 ^ attempts :=
      mul_le_mul_of_nonneg_left
        (pow_le_pow_right₀ (by norm_num) (Nat.sub_le attempts 1)) hBq.le
    exact mul_le_mul_of_nonneg_left (min_le_min le_rfl hpow) (by norm_num)
  · intro hlt
    show (3 / 4 : ℚ) * min M (B * 2 ^ (attempts - 1)) <
      (3 / 4 : ℚ) * min M (B * 2 ^ (attempts + 1 - 1))
    have hexp : (attempts + 1 - 1) = attempts := by omega
    rw [hexp]
    rw [min_eq_right hlt.le]
    have hpow : B * 2 ^ (attempts - 1) < B * 2 ^ attempts := by
      apply mul_lt_mul_of_pos_left _ hBq
      exact pow_lt_pow_right₀ (by norm_num) (by omega)
    exact mul_lt_mul_of_pos_left (lt_min hlt hpow) (by norm_num)

/-- Witness for C6 at the default delays, attempt 3 and jitter 1/2. -/
theorem c6_reconnect_delay_witness :
    (0 ≤ calculateReconnectDelay (some 1000) (some 30000) 3 (1 / 2)) ∧
    (calculateReconnectDelay (some 1000) (some 30000) 3 (1 / 2) ≤
      jsTruthyOr (some 30000) reconnectMaxDelayDefault) ∧
    (expectedReconnectDelay (some 1000) (some 30000) 3 ≤
      expectedReconnectDelay (some 1000) (some 30000) 4) := by
  have h := c6_reconnect_delay (some 1000) (some 30000) 3 (1 / 2)
    (by intro v hv; cases hv; omega) (by intro v hv; cases hv; omega)
    (by omega) (by norm_num) (by norm_num)
  exact ⟨h.2.1, h.2.2.1, h.2.2.2.1⟩

/-- Claim C7: with both endpoints present, an unrecognized recording mode
falls back to connecting both tracks with a warning and does not fail,
while the three recognized modes connect both tracks, audio only, or video
only respectively. -/
theorem c7_connect_endpoints_fallback (mode : String)
    (h1 : mode ≠ "audio-video") (h2 : mode ≠ "audio-only") (h3 : mode ≠ "video-only") :
    connectEndpoints true true mode = .ok (.bothTracks, true) ∧
    connectEndpoints true true ("audio-video") = .ok (.bothTracks, false) ∧
    connectEndpoints true true ("audio-only") = .ok (.audioTrackOnly, false) ∧
    connectEndpoints true true ("video-only") = .ok (.videoTrackOnly, false) := by
  refine ⟨by simp [connectEndpoints, h1, h2, h3], rfl, rfl, rfl⟩

/-- Witness for C7 at the unrecognized mode string "screen-share". -/
theorem c7_connect_endpoints_fallback_witness :
    ("screen-share" : String) ≠ "audio-video" ∧
    connectEndpoints true true ("screen-share") = .ok (.bothTracks, true) :=
  ⟨by decide, (c7_connect_endpoints_fallback ("screen-share")
    (by decide) (by decide) (by decide)).1⟩

/-- Claim C8: before an endpoint is attached, candidates are buffered in
arrival order and nothing is forwarded or thrown; attaching the endpoint
flushes the whole buffer in original order, clears it and never throws,
whatever the per-candidate apply outcomes; once attached, a candidate is
forwarded immediately. -/
theorem c8_ice_candidate_buffering (h g : WebRTCHandlerState) (applyOk : Bool)
    (applyOkF : Nat → Bool) (c : Nat) (cs : List Nat)
    (hno : h.hasEndpoint = false) (hyes : g.hasEndpoint = true) :
    (addIceCandidate applyOk c h =
      ({ h with pendingCandidates := h.pendingCandidates ++ [c] }, [], false)) ∧
    ((addIceCandidates cs h).pendingCandidates = h.pendingCandidates ++ cs) ∧
    ((setEndpoint applyOkF (addIceCandidates cs h)).2.1 = h.pendingCandidates ++ cs) ∧
    ((setEndpoint applyOkF (addIceCandidates cs h)).1.pendingCandidates = []) ∧
    ((setEndpoint applyOkF (addIceCandidates cs h)).2.2 = false) ∧
    ((addIceCandidate applyOk c g).1 = g ∧ (addIceCandidate applyOk c g).2.1 = [c]) := by
  have hb := addIceCandidates_of_no_endpoint cs h hno
  refine ⟨by simp [addIceCandidate, hno], by rw [hb], ?_, ?_, ?_, ?_⟩
  · rw [hb]
    by_cases he : h.pendingCandidates ++ cs = []
    · simp [setEndpoint, he]
    · simp [setEndpoint, applyPendingCandidates, he, flushAttempts_fst]
  · rw [hb]
    by_cases he : h.pendingCandidates ++ cs = []
    · simp [setEndpoint, he]
    · simp [setEndpoint, applyPendingCandidates, he]
  · rw [hb]
    by_cases he : h.pendingCandidates ++ cs = []
    · simp [setEndpoint, he]
    · simp [setEndpoint, applyPendingCandidates, he]
  · cases applyOk <;> simp [addIceCandidate, hyes]

/-- Witness for C8: two buffered candidates plus two more are all flushed in
arrival order even though the odd ones fail to apply, and the flush does
not throw. -/
theorem c8_ice_candidate_buffering_witness :
    (⟨false, [1, 2]⟩ : WebRTCHandlerState).hasEndpoint = false ∧
    (setEndpoint (fun c => decide (c % 2 = 0))
      (addIceCandidates [3, 4] ⟨false, [1, 2]⟩)).2.1 = [1, 2, 3, 4] ∧
    (setEndpoint (fun c => decide (c % 2 = 0))
      (addIceCandidates [3, 4] ⟨false, [1, 2]⟩)).2.2 = false := by
  refine ⟨rfl, ?_, ?_⟩
  · exact (c8_ice_candidate_buffering ⟨false, [1, 2]⟩ ⟨true, []⟩ true
      (fun c => decide (c % 2 = 0)) 9 [3, 4] rfl rfl).2.2.1
  · exact (c8_ice_candidate_buffering ⟨false, [1, 2]⟩ ⟨true, []⟩ true
      (fun c => decide (c % 2 = 0)) 9 [3, 4] rfl rfl).2.2.2.2.1

/-- Claim C9: invoking processOffer, start, pause or resume in a lifecycle
state where the operation is not valid returns the invalid-state session
error and leaves the session state record entirely unchanged (in
particular it does not become ERROR). -/
theorem c9_invalid_state_guards (s : RecordingSession)
    (createOk endpointSet startOk : Bool) (now : Nat)
    (pt : PauseType) (rt : Option PauseType) :
    (s.state ≠ .ready →
      processOffer createOk endpointSet s = (.error .sessionInvalidState, s)) ∧
    (s.state ≠ .ready → start startOk now s = (.error .sessionInvalidState, s)) ∧
    (s.state ≠ .recording → pause now pt s = (.error .sessionInvalidState, s)) ∧
    (s.state ≠ .paused → resume now rt s = (.error .sessionInvalidState, s)) := by
  refine ⟨fun h => ?_, fun h => ?_, fun h => ?_, fun h => ?_⟩ <;>
    simp [processOffer, start, pause, resume, h]

/-- Witness for C9 at a freshly created session (state CREATED). -/
theorem c9_invalid_state_guards_witness :
    (mkRecordingSession true).state ≠ .ready ∧
    processOffer true true (mkRecordingSession true) =
      (.error .sessionInvalidState, mkRecordingSession true) ∧
    pause 3 .both (mkRecordingSession true) =
      (.error .sessionInvalidState, mkRecordingSession true) := by
  refine ⟨by decide, ?_, ?_⟩
  · exact (c9_invalid_state_guards (mkRecordingSession true) true true true 3 .both
      none).1 (by decide)
  · exact (c9_invalid_state_guards (mkRecordingSession true) true true true 3 .both
      none).2.2.1 (by decide)

/-- Claim C10: normalization forces hasAudio to true for audio-only mode
even when the caller supplied false, and an unsupplied hasAudio defaults to
false exactly for video-only mode and to true for the other modes. -/
theorem c10_has_audio_normalization (o : SessionOptionsInput)
    (n : NormalizedSessionOptions)
    (h : validateSessionOptions o = .ok n) :
    (o.recordingMode.getD .audioVideo = .audioOnly → n.hasAudio = true) ∧
    (o.hasAudio = none →
      n.hasAudio = decide (o.recordingMode.getD .audioVideo ≠ .videoOnly)) ∧
    (n.recordingMode = o.recordingMode.getD .audioVideo) := by
  unfold validateSessionOptions at h
  dsimp only at h
  split at h
  · exact absurd h (by simp)
  · rw [Except.ok.injEq] at h
    subst h
    refine ⟨?_, ?_, rfl⟩
    · intro hmode
      dsimp only
      rw [hmode]
      rcases hA : o.hasAudio.getD
          (decide (o.recordingMode.getD .audioVideo ≠ .videoOnly) && true)
      · simp [hmode] at hA
        simp [hA]
      · simp [hmode] at hA
        simp [hA]
    · intro hnone
      dsimp only
      rw [hnone, Option.getD_none, Bool.and_true]
      cases hm : o.recordingMode.getD RecordingMode.audioVideo <;> simp [hm]

/-- Witness for C10: audio-only mode with hasAudio supplied as false is
normalized with hasAudio true. -/
theorem c10_has_audio_normalization_witness :
    validateSessionOptions { recordingMode := some .audioOnly, hasAudio := some false } =
      .ok { mediaProfile := .webmAudioOnly, quality := .high, maxBitrate := 4000,
            minBitrate := 1000, recordingMode := .audioOnly, hasAudio := true,
            width := 1920, height := 1080, frameRate := 30,
            insertBlankScreenOnPause := true } ∧
    ({ mediaProfile := .webmAudioOnly, quality := .high, maxBitrate := 4000,
       minBitrate := 1000, recordingMode := .audioOnly, hasAudio := true,
       width := 1920, height := 1080, frameRate := 30,
       insertBlankScreenOnPause := true } : NormalizedSessionOptions).hasAudio = true := by
  refine ⟨rfl, ?_⟩
  exact (c10_has_audio_normalization
    { recordingMode := some .audioOnly, hasAudio := some false }
    { mediaProfile := .webmAudioOnly, quality := .high, maxBitrate := 4000,
      minBitrate := 1000, recordingMode := .audioOnly, hasAudio := true,
      width := 1920, height := 1080, frameRate := 30,
      insertBlankScreenOnPause := true } rfl).1 rfl

end RecSDK
